import Mathlib

/-
Verification of the sensor-measurement database connector (database2.py).

The embedding models the SQLite tables as lists of rows, SQL NULL as
Option, engine-assigned surrogate ids as max-id-plus-one (the SQLite rowid
rule for INTEGER PRIMARY KEY), and the per-connector python dictionaries
as association lists.  The two public operations, register_sensor and
store_measurement, are translated for both backends (DatabaseConnector on
SQLite and PostgreSQLConnector on PostgreSQL).
-/

set_option autoImplicit false

namespace SensorDB

/-- One row of the units, type or sensor table: surrogate id, a nullable
name column (TEXT NOT NULL UNIQUE in the schema, but SQL parameters may
still be NULL before the constraint fires) and a nullable foreign-key
column (units.id for type rows, type.id for sensor rows; units rows carry
none). -/
structure Row where
  id : Nat
  name : Option String
  parent : Option Nat
deriving Repr, DecidableEq

/-- One row of the measurement table: timestamp TEXT, sensor FK, value REAL
(modelled exactly as a rational since the connector only stores it). -/
structure MeasurementRow where
  timestamp : String
  sensor : Nat
  value : Rat
deriving Repr, DecidableEq

/-- The four tables of the schema created by DatabaseConnector, in one
database state. -/
structure DBState where
  units : List Row
  type : List Row
  sensor : List Row
  measurement : List MeasurementRow
deriving Repr, DecidableEq

/-- A sensor description as consumed by register_sensor via the accessors
get_name, get_type, get_units. -/
structure Sensor where
  name : String
  type : String
  units : String
deriving Repr, DecidableEq

/-- A measurement record as consumed by store_measurement via the
accessors get_id (the sensor NAME string), get_timestamp and get_data. -/
structure Measurement where
  id : String
  timestamp : String
  data : Rat
deriving Repr, DecidableEq

/-- The failure modes of the connector operations, named after the
taxonomy of the design: notFound is the lookup after the conflict-tolerant
insert finding no row (in python, fetchone() returns None and subscripting
it raises), unregisteredSensor is the KeyError on the sensors dictionary,
duplicateMeasurement is the measurement primary-key violation surfaced by
the plain INSERT, notNullViolation is a NOT NULL violation that the
PostgreSQL named-constraint conflict clause does not absorb. -/
inductive DBError where
  | notFound
  | unregisteredSensor
  | duplicateMeasurement
  | notNullViolation
deriving Repr, DecidableEq

/-- The connector state: the database plus the three python dictionaries
self dot units, types, sensors that remember resolved ids. -/
structure Connector where
  db : DBState
  unitsDict : List (String × Nat)
  typesDict : List (String × Nat)
  sensorsDict : List (String × Nat)
deriving Repr, DecidableEq

/-- Engine id assignment: SQLite INTEGER PRIMARY KEY rowid rule, one more
than the largest id in the table. -/
def nextId (rows : List Row) : Nat :=
  (rows.foldr (fun r m => max r.id m) 0) + 1

/-- Does the table hold a row with this (nullable) name value? -/
def hasName (rows : List Row) (n : Option String) : Bool :=
  rows.any (fun r => r.name == n)

/-- SELECT id FROM table WHERE name = ? taking the first row: a NULL
parameter matches no row (SQL three-valued equality), otherwise the first
row with that name. -/
def selectIdByName (rows : List Row) (n : Option String) : Option Nat :=
  match n with
  | none => none
  | some s => (rows.find? (fun r => r.name == some s)).map Row.id

/-- INSERT OR IGNORE (SQLite): any constraint violation, a NULL name
(NOT NULL) or an existing row with the same name (UNIQUE), silently skips
the insert; otherwise the row is appended with a fresh id. -/
def insertOrIgnore (rows : List Row) (n : Option String) (parent : Option Nat) : List Row :=
  if n.isNone || hasName rows n then rows
  else rows ++ [{ id := nextId rows, name := n, parent := parent }]

/-- Dictionary read, python d[k] or k in d. -/
def dictGet (d : List (String × Nat)) (k : String) : Option Nat :=
  (d.find? (fun p => p.1 == k)).map Prod.snd

/-- The pattern: if items[0] not in id_dict, then id_dict[items[0]] = item_id. -/
def dictInsertIfAbsent (d : List (String × Nat)) (k : String) (v : Nat) : List (String × Nat) :=
  if (dictGet d k).isSome then d else (k, v) :: d

/-- Nested helper insert_and_recall_id of DatabaseConnector.register_sensor:
conflict-tolerant insert, then SELECT the id by name (failing when no row
comes back), then remember the id in the dictionary when absent.  Returns
the id with the updated table and dictionary. -/
def insert_and_recall_id (rows : List Row) (n : Option String) (parent : Option Nat)
    (d : List (String × Nat)) :
    Except DBError (Nat × List Row × List (String × Nat)) :=
  match n, selectIdByName (insertOrIgnore rows n parent) n with
  | _, none => .error .notFound
  | some s, some i => .ok (i, insertOrIgnore rows n parent, dictInsertIfAbsent d s i)
  | none, some i => .ok (i, insertOrIgnore rows n parent, d)

/-- DatabaseConnector.register_sensor: resolve units, then type with the
units id, then sensor with the type id, committing the three updated
tables and dictionaries.  The python method returns None; the embedding
also exposes the resolved sensor id. -/
def register_sensor (c : Connector) (s : Sensor) : Except DBError (Nat × Connector) :=
  match insert_and_recall_id c.db.units (some s.units) none c.unitsDict with
  | .error e => .error e
  | .ok (units_id, urows, udict) =>
    match insert_and_recall_id c.db.type (some s.type) (some units_id) c.typesDict with
    | .error e => .error e
    | .ok (type_id, trows, tdict) =>
      match insert_and_recall_id c.db.sensor (some s.name) (some type_id) c.sensorsDict with
      | .error e => .error e
      | .ok (sensor_id, srows, sdict) =>
        .ok (sensor_id,
          { db := { units := urows, type := trows, sensor := srows,
                    measurement := c.db.measurement },
            unitsDict := udict, typesDict := tdict, sensorsDict := sdict })

/-- DatabaseConnector.store_measurement: read the sensor id from the
sensors dictionary (KeyError when absent, before any SQL runs), then a
plain INSERT into measurement whose PRIMARY KEY (timestamp, sensor) makes
a duplicate pair fail.  The pair (raised error, resulting connector) makes
the no-write-on-failure behavior explicit. -/
def store_measurement (c : Connector) (m : Measurement) : Option DBError × Connector :=
  match dictGet c.sensorsDict m.id with
  | none => (some .unregisteredSensor, c)
  | some sid =>
    if c.db.measurement.any (fun r => r.timestamp == m.timestamp && r.sensor == sid) then
      (some .duplicateMeasurement, c)
    else
      (none, { c with db := { c.db with
                 measurement := c.db.measurement ++ [⟨m.timestamp, sid, m.data⟩] } })

/-- DatabaseConnector private method that creates the schema: DROP TABLE IF
EXISTS then CREATE TABLE for measurement, sensor, type and units, so every
table of the previous state is emptied. -/
def create_database (_db : DBState) : DBState :=
  { units := [], type := [], sensor := [], measurement := [] }

/-- DatabaseConnector construction on a database file holding some prior
state: the schema is rebuilt (dropping all rows) and the three
dictionaries start empty. -/
def connectorInit (db : DBState) : Connector :=
  { db := create_database db, unitsDict := [], typesDict := [], sensorsDict := [] }

/-- PostgreSQL INSERT with ON CONFLICT ON CONSTRAINT table_name_key DO
NOTHING: only a conflict on the named uniqueness constraint over name is
absorbed; a NULL name is a NOT NULL violation the clause does not cover,
so it raises.  The constraint argument carries the per-table constraint
name the connector passes (units_name_key, type_name_key, sensor_name_key). -/
def pgInsertOnConflict (rows : List Row) (n : Option String) (parent : Option Nat)
    (_constraint : String) : Except DBError (List Row) :=
  match n with
  | none => .error .notNullViolation
  | some s =>
    if hasName rows (some s) then .ok rows
    else .ok (rows ++ [{ id := nextId rows, name := some s, parent := parent }])

/-- Nested helper insert_and_recall_id of PostgreSQLConnector.register_sensor:
same shape as the SQLite one but with the named-constraint conflict
clause. -/
def pg_insert_and_recall_id (rows : List Row) (n : Option String) (parent : Option Nat)
    (constraint : String) (d : List (String × Nat)) :
    Except DBError (Nat × List Row × List (String × Nat)) :=
  match pgInsertOnConflict rows n parent constraint with
  | .error e => .error e
  | .ok rows1 =>
    match n, selectIdByName rows1 n with
    | _, none => .error .notFound
    | some s, some i => .ok (i, rows1, dictInsertIfAbsent d s i)
    | none, some i => .ok (i, rows1, d)

/-- PostgreSQLConnector.register_sensor: identical chain with the
backend-specific conflict clause and the per-table constraint names. -/
def pg_register_sensor (c : Connector) (s : Sensor) : Except DBError (Nat × Connector) :=
  match pg_insert_and_recall_id c.db.units (some s.units) none "units_name_key" c.unitsDict with
  | .error e => .error e
  | .ok (units_id, urows, udict) =>
    match pg_insert_and_recall_id c.db.type (some s.type) (some units_id) "type_name_key" c.typesDict with
    | .error e => .error e
    | .ok (type_id, trows, tdict) =>
      match pg_insert_and_recall_id c.db.sensor (some s.name) (some type_id) "sensor_name_key" c.sensorsDict with
      | .error e => .error e
      | .ok (sensor_id, srows, sdict) =>
        .ok (sensor_id,
          { db := { units := urows, type := trows, sensor := srows,
                    measurement := c.db.measurement },
            unitsDict := udict, typesDict := tdict, sensorsDict := sdict })

/-- An operation issued through one connector, for stating properties over
whole histories. -/
inductive Op where
  | reg (s : Sensor)
  | store (m : Measurement)
deriving Repr, DecidableEq

/-- Run one operation; a raised python exception leaves the connector
object as it was at the raise point (register_sensor cannot fail on string
inputs, store_measurement returns the unchanged state on failure). -/
def applyOp (c : Connector) (op : Op) : Connector :=
  match op with
  | .reg s =>
    match register_sensor c s with
    | .ok (_, c1) => c1
    | .error _ => c
  | .store m => (store_measurement c m).2

/-- Run a history of operations left to right. -/
def runOps (c : Connector) (ops : List Op) : Connector :=
  ops.foldl applyOp c

/-- The in-memory cache agrees with the database: whatever id the
dictionary remembers for a name is the id the SELECT by that name returns. -/
def dictCoherent (d : List (String × Nat)) (rows : List Row) : Prop :=
  ∀ k v, dictGet d k = some v → selectIdByName rows (some k) = some v

/-- All three per-level caches of a connector agree with their tables. -/
def coherent (c : Connector) : Prop :=
  dictCoherent c.unitsDict c.db.units ∧
  dictCoherent c.typesDict c.db.type ∧
  dictCoherent c.sensorsDict c.db.sensor

section Lemmas

variable {rows rows1 : List Row} {n : String} {p p2 : Option Nat}
variable {d d1 : List (String × Nat)} {i : Nat}

theorem selectIdByName_some_eq (rs : List Row) (s : String) :
    selectIdByName rs (some s) = (rs.find? (fun r => r.name == some s)).map Row.id := rfl

theorem selectIdByName_none_eq (rs : List Row) :
    selectIdByName rs none = none := rfl

theorem hasName_of_selectId (h : selectIdByName rows (some n) = some i) :
    hasName rows (some n) = true := by
  rw [selectIdByName_some_eq] at h
  unfold hasName
  cases hf : rows.find? (fun r => r.name == some n) with
  | none => rw [hf] at h; simp at h
  | some r =>
    have hm := List.mem_of_find?_eq_some hf
    have hp := List.find?_some hf
    exact List.any_eq_true.mpr ⟨r, hm, hp⟩

theorem selectId_append (l : List Row) (h : selectIdByName rows (some n) = some i) :
    selectIdByName (rows ++ l) (some n) = some i := by
  rw [selectIdByName_some_eq] at h ⊢
  cases hf : rows.find? (fun r => r.name == some n) with
  | none => rw [hf] at h; simp at h
  | some r =>
    rw [hf] at h
    rw [List.find?_append, hf]
    exact h

theorem selectId_insertOrIgnore (h : selectIdByName rows (some n) = some i)
    (n2 : Option String) (p2 : Option Nat) :
    selectIdByName (insertOrIgnore rows n2 p2) (some n) = some i := by
  unfold insertOrIgnore
  split
  · exact h
  · exact selectId_append _ h

theorem insertOrIgnore_existing (p : Option Nat) (h : hasName rows (some n) = true) :
    insertOrIgnore rows (some n) p = rows := by
  unfold insertOrIgnore
  simp [h]

theorem insertOrIgnore_fresh (p : Option Nat) (h : hasName rows (some n) = false) :
    insertOrIgnore rows (some n) p
      = rows ++ [{ id := nextId rows, name := some n, parent := p }] := by
  unfold insertOrIgnore
  simp [h]

theorem selectId_append_fresh (h : hasName rows (some n) = false) (r : Row)
    (hr : r.name = some n) :
    selectIdByName (rows ++ [r]) (some n) = some r.id := by
  rw [selectIdByName_some_eq]
  have hnone : rows.find? (fun r => r.name == some n) = none := by
    rw [List.find?_eq_none]
    intro x hx
    intro hbeq
    have : hasName rows (some n) = true := List.any_eq_true.mpr ⟨x, hx, hbeq⟩
    rw [h] at this
    exact Bool.false_ne_true this
  rw [List.find?_append, hnone]
  simp [List.find?, hr]

theorem dictGet_insertIfAbsent_isSome (k : String) (v : Nat) :
    (dictGet (dictInsertIfAbsent d k v) k).isSome = true := by
  unfold dictInsertIfAbsent
  split
  · assumption
  · simp [dictGet, List.find?]

theorem dictInsertIfAbsent_of_isSome (k : String) (v : Nat)
    (h : (dictGet d k).isSome = true) :
    dictInsertIfAbsent d k v = d := by
  unfold dictInsertIfAbsent
  simp [h]

theorem dictGet_insertIfAbsent_ne (k : String) (v : Nat) (k2 : String) (hne : k2 ≠ k) :
    dictGet (dictInsertIfAbsent d k v) k2 = dictGet d k2 := by
  unfold dictInsertIfAbsent
  split
  · rfl
  · have hb : (k == k2) = false := by
      simp only [beq_eq_false_iff_ne, ne_eq]
      exact fun hk => hne hk.symm
    simp [dictGet, List.find?, hb]

theorem dictGet_insertIfAbsent_self (k : String) (v : Nat)
    (h : dictGet d k = none) :
    dictGet (dictInsertIfAbsent d k v) k = some v := by
  unfold dictInsertIfAbsent
  rw [h]
  simp [dictGet, List.find?]

theorem selectId_of_hasName (h : hasName rows (some n) = true) :
    ∃ j, selectIdByName rows (some n) = some j := by
  rw [selectIdByName_some_eq]
  have hs : (rows.find? (fun r => r.name == some n)).isSome := by
    rw [List.find?_isSome]
    simpa [hasName, List.any_eq_true] using h
  obtain ⟨r, hr⟩ := Option.isSome_iff_exists.mp hs
  exact ⟨r.id, by rw [hr]; rfl⟩

theorem iar_existing (p : Option Nat) (d2 : List (String × Nat))
    (h : selectIdByName rows (some n) = some i) :
    insert_and_recall_id rows (some n) p d2 = .ok (i, rows, dictInsertIfAbsent d2 n i) := by
  have hins : insertOrIgnore rows (some n) p = rows :=
    insertOrIgnore_existing p (hasName_of_selectId h)
  unfold insert_and_recall_id
  rw [hins, h]

theorem iar_fresh (p : Option Nat) (d2 : List (String × Nat))
    (h : hasName rows (some n) = false) :
    insert_and_recall_id rows (some n) p d2 =
      .ok (nextId rows, rows ++ [{ id := nextId rows, name := some n, parent := p }],
           dictInsertIfAbsent d2 n (nextId rows)) := by
  have hins : insertOrIgnore rows (some n) p
      = rows ++ [{ id := nextId rows, name := some n, parent := p }] :=
    insertOrIgnore_fresh p h
  have hsel : selectIdByName (rows ++ [{ id := nextId rows, name := some n, parent := p }])
      (some n) = some (nextId rows) :=
    selectId_append_fresh h _ rfl
  unfold insert_and_recall_id
  rw [hins, hsel]

theorem iar_ok_inv (p : Option Nat) (d2 : List (String × Nat))
    (h : insert_and_recall_id rows (some n) p d2 = .ok (i, rows1, d1)) :
    rows1 = insertOrIgnore rows (some n) p ∧
    selectIdByName rows1 (some n) = some i ∧
    d1 = dictInsertIfAbsent d2 n i := by
  unfold insert_and_recall_id at h
  cases hx : selectIdByName (insertOrIgnore rows (some n) p) (some n) with
  | none => rw [hx] at h; simp at h
  | some j =>
    rw [hx] at h
    simp at h
    obtain ⟨hj, hr, hd⟩ := h
    subst hj
    exact ⟨hr.symm, by rw [hr] at hx; exact hx, hd.symm⟩

theorem iar_total (rows : List Row) (n : String) (p : Option Nat) (d2 : List (String × Nat)) :
    ∃ j, insert_and_recall_id rows (some n) p d2
      = .ok (j, insertOrIgnore rows (some n) p, dictInsertIfAbsent d2 n j) := by
  cases hh : hasName rows (some n) with
  | false =>
    exact ⟨nextId rows, by rw [iar_fresh p d2 hh, insertOrIgnore_fresh p hh]⟩
  | true =>
    obtain ⟨j, hsel⟩ := selectId_of_hasName hh
    exact ⟨j, by rw [iar_existing p d2 hsel, insertOrIgnore_existing p hh]⟩

theorem iar_stable (p2 : Option Nat) (p : Option Nat) (d2 : List (String × Nat))
    (h : insert_and_recall_id rows (some n) p d2 = .ok (i, rows1, d1)) :
    insert_and_recall_id rows1 (some n) p2 d1 = .ok (i, rows1, d1) := by
  obtain ⟨hr, hsel, hd⟩ := iar_ok_inv p d2 h
  have hfix : dictInsertIfAbsent d1 n i = d1 := by
    rw [hd]
    exact dictInsertIfAbsent_of_isSome n i (dictGet_insertIfAbsent_isSome n i)
  rw [iar_existing p2 d1 hsel, hfix]

end Lemmas

/-- Inversion of a successful register_sensor call into its three level
resolutions. -/
theorem register_sensor_ok_inv {c : Connector} {s : Sensor} {i : Nat} {c' : Connector}
    (h : register_sensor c s = .ok (i, c')) :
    ∃ u t,
      insert_and_recall_id c.db.units (some s.units) none c.unitsDict
        = .ok (u, c'.db.units, c'.unitsDict) ∧
      insert_and_recall_id c.db.type (some s.type) (some u) c.typesDict
        = .ok (t, c'.db.type, c'.typesDict) ∧
      insert_and_recall_id c.db.sensor (some s.name) (some t) c.sensorsDict
        = .ok (i, c'.db.sensor, c'.sensorsDict) ∧
      c'.db.measurement = c.db.measurement := by
  unfold register_sensor at h
  cases h1 : insert_and_recall_id c.db.units (some s.units) none c.unitsDict with
  | error e => simp only [h1] at h; exact Except.noConfusion h
  | ok r1 =>
    obtain ⟨u, urows, udict⟩ := r1
    simp only [h1] at h
    cases h2 : insert_and_recall_id c.db.type (some s.type) (some u) c.typesDict with
    | error e => simp only [h2] at h; exact Except.noConfusion h
    | ok r2 =>
      obtain ⟨t, trows, tdict⟩ := r2
      simp only [h2] at h
      cases h3 : insert_and_recall_id c.db.sensor (some s.name) (some t) c.sensorsDict with
      | error e => simp only [h3] at h; exact Except.noConfusion h
      | ok r3 =>
        obtain ⟨sid, srows, sdict⟩ := r3
        simp only [h3] at h
        simp at h
        obtain ⟨hi, hc⟩ := h
        subst hi
        subst hc
        exact ⟨u, t, rfl, h2, h3, rfl⟩

/-- A register_sensor call on string inputs always succeeds, with each
level given by the conflict-tolerant insert and the dictionary write. -/
theorem register_sensor_total (c : Connector) (s : Sensor) :
    ∃ i c', register_sensor c s = .ok (i, c') := by
  obtain ⟨u, hu⟩ := iar_total c.db.units s.units none c.unitsDict
  obtain ⟨t, ht⟩ := iar_total c.db.type s.type (some u) c.typesDict
  obtain ⟨j, hj⟩ := iar_total c.db.sensor s.name (some t) c.sensorsDict
  refine ⟨j,
    ⟨⟨insertOrIgnore c.db.units (some s.units) none,
      insertOrIgnore c.db.type (some s.type) (some u),
      insertOrIgnore c.db.sensor (some s.name) (some t),
      c.db.measurement⟩,
     dictInsertIfAbsent c.unitsDict s.units u,
     dictInsertIfAbsent c.typesDict s.type t,
     dictInsertIfAbsent c.sensorsDict s.name j⟩, ?_⟩
  unfold register_sensor
  simp only [hu, ht, hj]

theorem insertOrIgnore_append (rows : List Row) (n : Option String) (p : Option Nat) :
    ∃ l, insertOrIgnore rows n p = rows ++ l := by
  unfold insertOrIgnore
  split
  · exact ⟨[], (List.append_nil rows).symm⟩
  · exact ⟨[{ id := nextId rows, name := n, parent := p }], rfl⟩

/-
Concrete fixtures used by the witnesses: an empty database, the sensor of
the end-to-end scenario of the design, and the connector state after its
registration.
-/

def dbEmpty : DBState := { units := [], type := [], sensor := [], measurement := [] }

def cEmpty : Connector := connectorInit dbEmpty

def sTempA : Sensor := { name := "tempA", type := "temperature", units := "celsius" }

def cRegA : Connector :=
  { db := { units := [{ id := 1, name := some "celsius", parent := none }],
            type := [{ id := 1, name := some "temperature", parent := some 1 }],
            sensor := [{ id := 1, name := some "tempA", parent := some 1 }],
            measurement := [] },
    unitsDict := [("celsius", 1)],
    typesDict := [("temperature", 1)],
    sensorsDict := [("tempA", 1)] }

/-- C1: registering the same (name, type, units) description a second time
resolves to the same sensor id and returns exactly the state the first
call produced: no duplicate row in any table, no cache change. -/
theorem register_sensor_idempotent {c c' : Connector} {s : Sensor} {i : Nat}
    (h : register_sensor c s = .ok (i, c')) :
    register_sensor c' s = .ok (i, c') := by
  obtain ⟨u, t, h1, h2, h3, hm⟩ := register_sensor_ok_inv h
  have h1s := iar_stable none none c.unitsDict h1
  have h2s := iar_stable (some u) (some u) c.typesDict h2
  have h3s := iar_stable (some t) (some t) c.sensorsDict h3
  unfold register_sensor
  simp only [h1s, h2s, h3s]

theorem register_sensor_idempotent_witness :
    register_sensor cRegA sTempA = .ok (1, cRegA) :=
  register_sensor_idempotent (show register_sensor cEmpty sTempA = .ok (1, cRegA) from rfl)

/-- C2: registering a sensor whose units, type and sensor names are all
absent creates exactly one units row, one type row referencing the new
units id, and one sensor row referencing the new type id, appended in
dependency order, with the measurement table untouched. -/
theorem register_sensor_fresh_chain (c : Connector) (s : Sensor)
    (hu : hasName c.db.units (some s.units) = false)
    (ht : hasName c.db.type (some s.type) = false)
    (hs : hasName c.db.sensor (some s.name) = false) :
    register_sensor c s = .ok (nextId c.db.sensor,
      { db := { units := c.db.units
                  ++ [{ id := nextId c.db.units, name := some s.units, parent := none }],
                type := c.db.type
                  ++ [{ id := nextId c.db.type, name := some s.type,
                        parent := some (nextId c.db.units) }],
                sensor := c.db.sensor
                  ++ [{ id := nextId c.db.sensor, name := some s.name,
                        parent := some (nextId c.db.type) }],
                measurement := c.db.measurement },
        unitsDict := dictInsertIfAbsent c.unitsDict s.units (nextId c.db.units),
        typesDict := dictInsertIfAbsent c.typesDict s.type (nextId c.db.type),
        sensorsDict := dictInsertIfAbsent c.sensorsDict s.name (nextId c.db.sensor) }) := by
  unfold register_sensor
  simp only [iar_fresh none c.unitsDict hu,
    iar_fresh (some (nextId c.db.units)) c.typesDict ht,
    iar_fresh (some (nextId c.db.type)) c.sensorsDict hs]

theorem register_sensor_fresh_chain_witness :
    register_sensor cEmpty sTempA = .ok (1, cRegA) :=
  register_sensor_fresh_chain cEmpty sTempA rfl rfl rfl

/-- C6: whenever the SELECT after the conflict-tolerant insert returns no
row, the level resolution fails with the not-found error (in the source,
fetchone() returning None makes the subscript raise). -/
theorem iar_lookup_none_not_found (rows : List Row) (n : Option String) (p : Option Nat)
    (d : List (String × Nat))
    (h : selectIdByName (insertOrIgnore rows n p) n = none) :
    insert_and_recall_id rows n p d = .error .notFound := by
  unfold insert_and_recall_id
  rw [h]
  cases n <;> rfl

theorem iar_lookup_none_not_found_witness :
    selectIdByName (insertOrIgnore [] none none) none = none ∧
    insert_and_recall_id [] none none [] = .error .notFound :=
  ⟨rfl, iar_lookup_none_not_found [] none none [] rfl⟩

/-- C7: resolving the type level with an absent units reference succeeds:
the type row is created and persisted with a null units column, it is
retrievable by name, and uniqueness is enforced on the name alone, since a
later insert with the same name and any parent is skipped. -/
theorem type_level_null_parent (rows : List Row) (t : String) (d : List (String × Nat))
    (p2 : Option Nat) (h : hasName rows (some t) = false) :
    insert_and_recall_id rows (some t) none d
      = .ok (nextId rows, rows ++ [{ id := nextId rows, name := some t, parent := none }],
             dictInsertIfAbsent d t (nextId rows)) ∧
    selectIdByName (rows ++ [{ id := nextId rows, name := some t, parent := none }]) (some t)
      = some (nextId rows) ∧
    insertOrIgnore (rows ++ [{ id := nextId rows, name := some t, parent := none }])
        (some t) p2
      = rows ++ [{ id := nextId rows, name := some t, parent := none }] := by
  refine ⟨iar_fresh none d h, selectId_append_fresh h _ rfl, ?_⟩
  exact insertOrIgnore_existing p2 (hasName_of_selectId (selectId_append_fresh h _ rfl))

theorem type_level_null_parent_witness :
    insert_and_recall_id [] (some "temperature") none []
      = .ok (1, [{ id := 1, name := some "temperature", parent := none }],
             [("temperature", 1)]) ∧
    selectIdByName [{ id := 1, name := some "temperature", parent := none }]
        (some "temperature") = some 1 ∧
    insertOrIgnore [{ id := 1, name := some "temperature", parent := none }]
        (some "temperature") (some 5)
      = [{ id := 1, name := some "temperature", parent := none }] :=
  type_level_null_parent [] "temperature" [] (some 5) rfl

/-- C8: registering a name already present in the sensor table resolves to
the id of the existing row and leaves the sensor table unchanged, so the
possibly different type argument never updates the stored relation. -/
theorem register_sensor_existing_name (c : Connector) (s : Sensor) (i : Nat)
    (h : selectIdByName c.db.sensor (some s.name) = some i) :
    Except.map (fun r => (r.1, r.2.db.sensor)) (register_sensor c s)
      = .ok (i, c.db.sensor) := by
  obtain ⟨u, hu⟩ := iar_total c.db.units s.units none c.unitsDict
  obtain ⟨t, ht⟩ := iar_total c.db.type s.type (some u) c.typesDict
  have h3 := iar_existing (some t) c.sensorsDict h
  unfold register_sensor
  simp only [hu, ht, h3]
  rfl

theorem register_sensor_existing_name_witness :
    Except.map (fun r => (r.1, r.2.db.sensor))
        (register_sensor cRegA { name := "tempA", type := "pressure", units := "pascal" })
      = .ok (1, cRegA.db.sensor) :=
  register_sensor_existing_name cRegA
    { name := "tempA", type := "pressure", units := "pascal" } 1 rfl

theorem pg_iar_eq (rows : List Row) (n : String) (p : Option Nat) (cstr : String)
    (d : List (String × Nat)) :
    pg_insert_and_recall_id rows (some n) p cstr d = insert_and_recall_id rows (some n) p d := by
  have hpg : pgInsertOnConflict rows (some n) p cstr = .ok (insertOrIgnore rows (some n) p) := by
    unfold pgInsertOnConflict insertOrIgnore
    cases hh : hasName rows (some n) with
    | true => simp [hh]
    | false => simp [hh]
  unfold pg_insert_and_recall_id insert_and_recall_id
  rw [hpg]

/-- C10: on string-valued sensor descriptions the SQLite connector and the
PostgreSQL connector are extensionally the same operation: same resolved
ids, same resulting tables, same caches, for every starting state. -/
theorem backend_equivalence (c : Connector) (s : Sensor) :
    pg_register_sensor c s = register_sensor c s := by
  unfold pg_register_sensor register_sensor
  simp only [pg_iar_eq]

theorem dictCoherent_iar {rows rows1 : List Row} {n : String} {i : Nat}
    {d1 : List (String × Nat)} (p : Option Nat) (d2 : List (String × Nat))
    (hc : dictCoherent d2 rows)
    (h : insert_and_recall_id rows (some n) p d2 = .ok (i, rows1, d1)) :
    dictCoherent d1 rows1 ∧ dictGet d1 n = some i := by
  obtain ⟨hr, hsel, hd⟩ := iar_ok_inv p d2 h
  subst hr
  subst hd
  constructor
  · intro k v hkv
    by_cases hk : k = n
    · subst hk
      cases hg : dictGet d2 k with
      | none =>
        rw [dictGet_insertIfAbsent_self k i hg] at hkv
        cases hkv
        exact hsel
      | some w =>
        rw [dictInsertIfAbsent_of_isSome k i (by rw [hg]; rfl)] at hkv
        exact selectId_insertOrIgnore (hc k v hkv) _ _
    · rw [dictGet_insertIfAbsent_ne n i k hk] at hkv
      exact selectId_insertOrIgnore (hc k v hkv) _ _
  · cases hg : dictGet d2 n with
    | none => exact dictGet_insertIfAbsent_self n i hg
    | some w =>
      rw [dictInsertIfAbsent_of_isSome n i (by rw [hg]; rfl)]
      have hst := selectId_insertOrIgnore (hc n w hg) (some n) p
      rw [hsel] at hst
      rw [hg]
      exact hst.symm

/-- C3: starting from a connector whose caches agree with the database,
any successful register_sensor call keeps every cache coherent, leaves
an entry for each of the three names it was passed, and in particular the
cached id for the sensor name equals the id the sensor table stores for
that name. -/
theorem register_sensor_cache_coherent {c c' : Connector} {s : Sensor} {i : Nat}
    (hc : coherent c) (h : register_sensor c s = .ok (i, c')) :
    coherent c' ∧
    dictGet c'.sensorsDict s.name = some i ∧
    selectIdByName c'.db.sensor (some s.name) = some i ∧
    (dictGet c'.unitsDict s.units).isSome = true ∧
    (dictGet c'.typesDict s.type).isSome = true := by
  obtain ⟨hcu, hct, hcs⟩ := hc
  obtain ⟨u, t, h1, h2, h3, hm⟩ := register_sensor_ok_inv h
  obtain ⟨hcu2, hgu⟩ := dictCoherent_iar none c.unitsDict hcu h1
  obtain ⟨hct2, hgt⟩ := dictCoherent_iar (some u) c.typesDict hct h2
  obtain ⟨hcs2, hgs⟩ := dictCoherent_iar (some t) c.sensorsDict hcs h3
  refine ⟨⟨hcu2, hct2, hcs2⟩, hgs, hcs2 s.name i hgs, ?_, ?_⟩
  · rw [hgu]; rfl
  · rw [hgt]; rfl

theorem register_sensor_cache_coherent_witness :
    (coherent cRegA ∧
     dictGet cRegA.sensorsDict "tempA" = some 1 ∧
     selectIdByName cRegA.db.sensor (some "tempA") = some 1 ∧
     (dictGet cRegA.unitsDict "celsius").isSome = true ∧
     (dictGet cRegA.typesDict "temperature").isSome = true) :=
  register_sensor_cache_coherent
    (by
      refine ⟨?_, ?_, ?_⟩ <;>
        (intro k v hv; simp [cEmpty, connectorInit, dictGet] at hv))
    (show register_sensor cEmpty sTempA = .ok (1, cRegA) from rfl)

theorem store_measurement_sensorsDict (c : Connector) (m : Measurement) :
    (store_measurement c m).2.sensorsDict = c.sensorsDict := by
  unfold store_measurement
  split
  · rfl
  · split <;> rfl

theorem applyOp_sensorsDict_ne (c : Connector) (op : Op) (k : String)
    (hop : ∀ s : Sensor, op = Op.reg s → s.name ≠ k) :
    dictGet (applyOp c op).sensorsDict k = dictGet c.sensorsDict k := by
  cases op with
  | store m =>
    show dictGet (store_measurement c m).2.sensorsDict k = dictGet c.sensorsDict k
    rw [store_measurement_sensorsDict]
  | reg s =>
    have hne : s.name ≠ k := hop s rfl
    simp only [applyOp]
    cases hr : register_sensor c s with
    | error e => rfl
    | ok r =>
      obtain ⟨j, c1⟩ := r
      obtain ⟨u, t, h1, h2, h3, hm⟩ := register_sensor_ok_inv hr
      obtain ⟨hra, hrb, hrd⟩ := iar_ok_inv (some t) c.sensorsDict h3
      show dictGet c1.sensorsDict k = dictGet c.sensorsDict k
      rw [hrd]
      exact dictGet_insertIfAbsent_ne s.name j k (Ne.symm hne)

theorem runOps_sensorsDict_ne (ops : List Op) (c : Connector) (k : String)
    (hops : ∀ s : Sensor, Op.reg s ∈ ops → s.name ≠ k) :
    dictGet (runOps c ops).sensorsDict k = dictGet c.sensorsDict k := by
  induction ops generalizing c with
  | nil => rfl
  | cons op rest ih =>
    have hstep : dictGet (applyOp c op).sensorsDict k = dictGet c.sensorsDict k :=
      applyOp_sensorsDict_ne c op k
        (fun s hs => hops s (by rw [← hs]; exact List.mem_cons_self _ _))
    calc dictGet (runOps c (op :: rest)).sensorsDict k
        = dictGet (runOps (applyOp c op) rest).sensorsDict k := rfl
      _ = dictGet (applyOp c op).sensorsDict k :=
          ih (applyOp c op) (fun s hs => hops s (List.mem_cons_of_mem _ hs))
      _ = dictGet c.sensorsDict k := hstep

/-- C4: storing a measurement for a sensor name that no registration in
the whole history of this connector ever used fails with the
unregistered-sensor error and leaves the connector, hence the measurement
table, exactly as it was. -/
theorem store_measurement_unregistered (db : DBState) (ops : List Op) (m : Measurement)
    (h : ∀ s : Sensor, Op.reg s ∈ ops → s.name ≠ m.id) :
    store_measurement (runOps (connectorInit db) ops) m
      = (some .unregisteredSensor, runOps (connectorInit db) ops) := by
  have hg : dictGet (runOps (connectorInit db) ops).sensorsDict m.id = none := by
    rw [runOps_sensorsDict_ne ops (connectorInit db) m.id h]
    rfl
  unfold store_measurement
  rw [hg]

theorem store_measurement_unregistered_witness :
    store_measurement (runOps (connectorInit dbEmpty) [])
        { id := "nope", timestamp := "t1", data := 1 }
      = (some .unregisteredSensor, runOps (connectorInit dbEmpty) []) :=
  store_measurement_unregistered dbEmpty [] { id := "nope", timestamp := "t1", data := 1 }
    (fun _s hs => absurd hs (List.not_mem_nil _))

/-- C5: once a measurement is stored for a (timestamp, sensor) pair, a
second store for the same sensor name and timestamp with any value fails
with the duplicate-measurement error and changes nothing, so the first
value stays the one in the table. -/
theorem store_measurement_duplicate (c c1 : Connector) (m m2 : Measurement)
    (h1 : store_measurement c m = (none, c1))
    (hid : m2.id = m.id) (hts : m2.timestamp = m.timestamp) :
    (∃ sid, dictGet c.sensorsDict m.id = some sid ∧
       c1.db.measurement = c.db.measurement
         ++ [{ timestamp := m.timestamp, sensor := sid, value := m.data }]) ∧
    store_measurement c1 m2 = (some .duplicateMeasurement, c1) := by
  unfold store_measurement at h1
  cases hg : dictGet c.sensorsDict m.id with
  | none =>
    simp only [hg] at h1
    simp at h1
  | some sid =>
    simp only [hg] at h1
    cases hdup : c.db.measurement.any
        (fun r => r.timestamp == m.timestamp && r.sensor == sid) with
    | true =>
      simp only [hdup] at h1
      simp at h1
    | false =>
      simp only [hdup] at h1
      simp at h1
      have hc1 : c1 = { c with db := { c.db with
          measurement := c.db.measurement
            ++ [{ timestamp := m.timestamp, sensor := sid, value := m.data }] } } := by
        rw [← h1]
      have hsd : c1.sensorsDict = c.sensorsDict := by rw [hc1]
      have hms : c1.db.measurement = c.db.measurement
          ++ [{ timestamp := m.timestamp, sensor := sid, value := m.data }] := by
        rw [hc1]
      refine ⟨⟨sid, rfl, hms⟩, ?_⟩
      unfold store_measurement
      have hgx : dictGet c1.sensorsDict m2.id = some sid := by rw [hsd, hid, hg]
      simp only [hgx]
      have hcond : (c1.db.measurement.any
          fun r => r.timestamp == m2.timestamp && r.sensor == sid) = true := by
        rw [hms, hts]
        simp [List.any_append]
      simp only [hcond]
      simp

def cMeasA : Connector :=
  { cRegA with db := { cRegA.db with
      measurement := [{ timestamp := "t1", sensor := 1, value := 20 }] } }

/-- A database already holding one units row, used to exhibit the drop on
construction. -/
def dbOne : DBState :=
  { units := [{ id := 1, name := some "celsius", parent := none }],
    type := [], sensor := [], measurement := [] }

theorem store_measurement_duplicate_witness :
    (∃ sid, dictGet cRegA.sensorsDict "tempA" = some sid ∧
       cMeasA.db.measurement = cRegA.db.measurement
         ++ [{ timestamp := "t1", sensor := sid, value := 20 }]) ∧
    store_measurement cMeasA { id := "tempA", timestamp := "t1", data := 99 }
      = (some .duplicateMeasurement, cMeasA) :=
  store_measurement_duplicate cRegA cMeasA
    { id := "tempA", timestamp := "t1", data := 20 }
    { id := "tempA", timestamp := "t1", data := 99 }
    rfl rfl rfl

/-- C9 counterexample: constructing a DatabaseConnector over a database
that already holds a units row leaves the units table empty, because the
constructor drops and recreates every table; so it is false that no
operation of the system, connector construction included, removes an
existing row. -/
theorem connectorInit_deletes_rows :
    dbOne.units ≠ [] ∧ (connectorInit dbOne).db.units = [] :=
  ⟨by decide, rfl⟩

/-- C9 amended: the two public operations, register_sensor and
store_measurement, are append-only on every table: whatever they do, each
table of the resulting state is the old table with rows appended at the
end, so existing rows are never modified or removed by them.  Connector
construction is the exception the counterexample exhibits. -/
theorem applyOp_append_only (c : Connector) (op : Op) :
    ∃ l1 l2 l3 l4,
      (applyOp c op).db.units = c.db.units ++ l1 ∧
      (applyOp c op).db.type = c.db.type ++ l2 ∧
      (applyOp c op).db.sensor = c.db.sensor ++ l3 ∧
      (applyOp c op).db.measurement = c.db.measurement ++ l4 := by
  cases op with
  | store m =>
    simp only [applyOp]
    unfold store_measurement
    cases hg : dictGet c.sensorsDict m.id with
    | none => exact ⟨[], [], [], [], by simp⟩
    | some sid =>
      cases hdup : c.db.measurement.any
          (fun r => r.timestamp == m.timestamp && r.sensor == sid) with
      | true => exact ⟨[], [], [], [], by simp [hdup]⟩
      | false =>
        exact ⟨[], [], [],
          [{ timestamp := m.timestamp, sensor := sid, value := m.data }], by simp [hdup]⟩
  | reg s =>
    simp only [applyOp]
    cases hr : register_sensor c s with
    | error e => exact ⟨[], [], [], [], by simp⟩
    | ok r =>
      obtain ⟨j, c1⟩ := r
      obtain ⟨u, t, h1, h2, h3, hm⟩ := register_sensor_ok_inv hr
      obtain ⟨hr1, hs1, hd1⟩ := iar_ok_inv none c.unitsDict h1
      obtain ⟨hr2, hs2, hd2⟩ := iar_ok_inv (some u) c.typesDict h2
      obtain ⟨hr3, hs3, hd3⟩ := iar_ok_inv (some t) c.sensorsDict h3
      obtain ⟨l1, hl1⟩ := insertOrIgnore_append c.db.units (some s.units) none
      obtain ⟨l2, hl2⟩ := insertOrIgnore_append c.db.type (some s.type) (some u)
      obtain ⟨l3, hl3⟩ := insertOrIgnore_append c.db.sensor (some s.name) (some t)
      exact ⟨l1, l2, l3, [],
        show c1.db.units = c.db.units ++ l1 by rw [hr1, hl1],
        show c1.db.type = c.db.type ++ l2 by rw [hr2, hl2],
        show c1.db.sensor = c.db.sensor ++ l3 by rw [hr3, hl3],
        show c1.db.measurement = c.db.measurement ++ [] by rw [hm]; simp⟩

end SensorDB
